import Mathlib

/-!
The demo-tracker-service: request handlers and authentication middleware

A shallow embedding of the Go sources

* `src/handlers/health.go`  (`HealthCheckHandler`)
* `src/handlers/track.go`   (`TrackRequest`, `TrackURLHandler`)
* `src/middleware/auth.go`  (`AuthMiddleware`)
* `src/models/url.go`       (`URL`)
* `src/main.go`             (the `/track/` route: `AuthMiddleware` around `TrackURLHandler`)

Handlers are state-passing functions on a `World`: the state of the relational
store together with the trace of the effects issued so far (store queries,
outbound validator calls, lines printed).  What the standard library and the
external collaborators compute (JSON decoding, `os.Getenv`, `http.NewRequest`,
`http.Client.Do`, the gorm handle) is taken as a parameter.
-/

namespace DemoTracker

/-! ## HTTP plumbing -/

/-- Status codes of `net/http` used by the service. -/
def StatusOK : Nat := 200
/-- `http.StatusCreated`. -/
def StatusCreated : Nat := 201
/-- `http.StatusBadRequest`. -/
def StatusBadRequest : Nat := 400
/-- `http.StatusUnauthorized`. -/
def StatusUnauthorized : Nat := 401
/-- `http.StatusConflict`. -/
def StatusConflict : Nat := 409
/-- `http.StatusInternalServerError`. -/
def StatusInternalServerError : Nat := 500

/-- `http.Header`: canonical header names with their values. -/
abbrev Header := List (String × List String)

/-- `Header.Get`: the first value stored under the key, `""` when there is none. -/
def Header.Get (h : Header) (key : String) : String :=
  match h.lookup key with
  | some (v :: _) => v
  | _ => ""

/-- The part of `*http.Request` the handlers can look at. -/
structure Request where
  Method : String
  Header : Header
  Body : String
deriving DecidableEq, Repr

/-- What a handler leaves in its `http.ResponseWriter`. -/
structure Response where
  status : Nat
  body : String
deriving DecidableEq, Repr

/-- `http.Error(w, msg, code)`: status `code`, body `msg` followed by a newline. -/
def httpError (msg : String) (code : Nat) : Response :=
  { status := code, body := msg ++ "\n" }

/-- How the handling of one request ends: a response was written, or the
process was terminated (`log.Fatal` calls `os.Exit(1)`) before any was. -/
inductive Outcome where
  | response (r : Response)
  | exit (code : Nat)
deriving DecidableEq, Repr

/-- Status code of the response, if one was written. -/
def Outcome.status? : Outcome → Option Nat
  | .response r => some r.status
  | .exit _ => none

/-! ## Data model (`models/url.go`, `handlers/track.go`) -/

/-- `models.URL`: the `ID` of the embedded `gorm.Model` and the target URL.
The time stamps of `gorm.Model` are never read or written by the service. -/
structure URL where
  ID : Nat
  TargetURL : String
deriving DecidableEq, Repr

/-- `handlers.TrackRequest`. -/
structure TrackRequest where
  TargetURL : String
deriving DecidableEq, Repr

/-- Errors of a gorm call: `gorm.ErrRecordNotFound`, or anything else
(connectivity, a failed query, a violated constraint). -/
inductive DbError where
  | recordNotFound
  | other (msg : String)
deriving DecidableEq, Repr

/-- Result of `client.Do(req)`: a transport or timeout error, or a response
with its status code. -/
inductive DoResult where
  | err (msg : String)
  | resp (StatusCode : Nat)
deriving DecidableEq, Repr

/-- The non-nil `*gorm.DB` handle over a store with states `σ`:
`First u s` is `db.Where("target_url = ?", u).First(&existingURL)` and
`Create url s` is `db.Create(&url)`, with its error and the store afterwards. -/
structure DB (σ : Type) where
  First : String → σ → Except DbError URL
  Create : URL → σ → Option DbError × σ

/-! ## Effects -/

/-- Effects a handler issues, in the order it issues them. -/
inductive Event where
  | println (line : String)
  | logFatal (line : String)
  | clientDo (url authorization : String) (result : DoResult)
  | dbFirst (targetURL : String)
  | dbCreate (targetURL : String)
deriving DecidableEq, Repr

/-- State of the store and the effects issued so far. -/
structure World (σ : Type) where
  store : σ
  trace : List Event

/-- Append effects to the trace. -/
def World.emit {σ : Type} (w : World σ) (es : List Event) : World σ :=
  { w with trace := w.trace ++ es }

/-- An `http.Handler`. -/
abbrev Handler (σ : Type) := Request → World σ → Outcome × World σ

/-- What the middleware reads from its surroundings: `os.Getenv`, whether
`http.NewRequest("GET", url, nil)` succeeds on a URL, and the answer of
`client.Do` (5 second timeout) to a GET of the URL carrying the given
`Authorization` header. -/
structure Env where
  Getenv : String → String
  NewRequestOk : String → Bool
  Do : String → String → DoResult

/-! ## `strings` -/

/-- `strings.HasPrefix`. -/
def HasPrefix (s pre : String) : Bool :=
  pre.data.isPrefixOf s.data

/-- `strings.TrimPrefix`. -/
def TrimPrefix (s pre : String) : String :=
  if HasPrefix s pre then String.mk (s.data.drop pre.data.length) else s

/-! ## Handlers -/

/-- `handlers.HealthCheckHandler`. -/
def HealthCheckHandler {σ : Type} : Handler σ :=
  fun _r w => (.response { status := StatusOK, body := "Service is up and running" }, w)

/-- `handlers.TrackURLHandler(db)`; `jsonDecode` is
`json.NewDecoder(r.Body).Decode(&req)`, `none` when it returns an error, and
`db = none` is the nil handle. -/
def TrackURLHandler {σ : Type} (jsonDecode : String → Option TrackRequest)
    (db : Option (DB σ)) : Handler σ :=
  fun r w =>
    match jsonDecode r.Body with
    | none => (.response (httpError "Invalid request payload" StatusBadRequest), w)
    | some req =>
      if req.TargetURL = "" then
        (.response (httpError "Target URL is required" StatusBadRequest), w)
      else
        let url : URL := { ID := 0, TargetURL := req.TargetURL }
        match db with
        | none =>
          (.response (httpError "Database connection is not available"
            StatusInternalServerError), w)
        | some db =>
          let w1 := w.emit [.dbFirst req.TargetURL]
          match db.First req.TargetURL w1.store with
          | .ok _ => (.response (httpError "URL already exists" StatusConflict), w1)
          | .error _ =>
            let res := db.Create url w1.store
            let w2 : World σ :=
              { store := res.2, trace := w1.trace ++ [.dbCreate url.TargetURL] }
            match res.1 with
            | some _ =>
              (.response (httpError "Failed to save target URL"
                StatusInternalServerError), w2)
            | none =>
              (.response { status := StatusCreated,
                           body := "\x7b\"message\":\"URL tracked successfully\"\x7d\n" }, w2)

/-- `middleware.AuthMiddleware(next)`. -/
def AuthMiddleware {σ : Type} (env : Env) (next : Handler σ) : Handler σ :=
  fun r w =>
    let authHeader := r.Header.Get "Authorization"
    if authHeader = "" ∨ ¬ HasPrefix authHeader "Bearer " then
      (.response (httpError "Missing or invalid Authorization header" StatusUnauthorized), w)
    else
      let token := TrimPrefix authHeader "Bearer "
      let validationURL := env.Getenv "TOKEN_VALIDATION_URL"
      if validationURL = "" then
        -- log.Fatal prints and calls os.Exit(1): the two statements after it are never reached
        (.exit 1, w.emit [.logFatal "TOKEN_VALIDATION_URL is not set"])
      else
        let w1 := w.emit [.println validationURL]
        if env.NewRequestOk validationURL = false then
          (.response (httpError "Failed to create validation request"
            StatusInternalServerError), w1)
        else
          let authorization := "Bearer " ++ token
          let w2 := w1.emit [.println validationURL]
          let res := env.Do validationURL authorization
          let w3 := w2.emit [.clientDo validationURL authorization res]
          match res with
          | .err _ => (.response (httpError "Failed to validate token" StatusUnauthorized), w3)
          | .resp code =>
            if code ≠ StatusOK then
              (.response (httpError "Unauthorized: Invalid token" StatusUnauthorized), w3)
            else
              next r (w3.emit [.println "token is valid"])

/-- Requests handled one after the other by the same handler; once the
process has exited nothing more is served. -/
def serve {σ : Type} (h : Handler σ) : List Request → World σ → List Outcome × World σ
  | [], w => ([], w)
  | r :: rs, w =>
    match h r w with
    | (.exit c, w1) => ([.exit c], w1)
    | (.response a, w1) =>
      let rest := serve h rs w1
      (.response a :: rest.1, rest.2)

/-- The `/track/` route of `main`: `AuthMiddleware` in front of `TrackURLHandler(db)`. -/
def trackRoute {σ : Type} (env : Env) (jsonDecode : String → Option TrackRequest)
    (db : Option (DB σ)) : Handler σ :=
  AuthMiddleware env (TrackURLHandler jsonDecode db)

/-! ## The store as a list of records -/

/-- Modelled from the spec: the relational store behind the gorm handle, which
is not part of the sources.  The store is the list of its records; lookup is by
exact string equality on the target URL; insert assigns the next identifier and
appends, enforcing nothing itself. -/
def listDB : DB (List URL) where
  First := fun u s =>
    match s.find? (fun rec => rec.TargetURL = u) with
    | some rec => .ok rec
    | none => .error .recordNotFound
  Create := fun url s => (none, s ++ [{ url with ID := s.length + 1 }])

/-- No two records share a target URL. -/
def UniqueTargets (s : List URL) : Prop :=
  (s.map (fun rec => rec.TargetURL)).Nodup

/-- Number of records with the given target URL. -/
def countTarget (u : String) (s : List URL) : Nat :=
  (s.filter (fun rec => rec.TargetURL = u)).length

/-! ## Concrete requests -/

/-- A decoder for evaluating the handlers on concrete requests: the two bodies
of the scenarios decode as `encoding/json` decodes them, and every other body
is taken to be malformed. -/
def exampleDecode (body : String) : Option TrackRequest :=
  if body = "\x7b\"target_url\": \"https://example.com\"\x7d" then
    some { TargetURL := "https://example.com" }
  else if body = "\x7b\"target_url\": \"\"\x7d" then
    some { TargetURL := "" }
  else none

/-- A `POST /track/` request with the given `Authorization` value and body. -/
def postTrack (authorization body : String) : Request :=
  { Method := "POST", Header := [("Authorization", [authorization])], Body := body }

/-- The request of the tracking scenario, with token `t0`. -/
def exampleRequest : Request :=
  postTrack "Bearer t0" "\x7b\"target_url\": \"https://example.com\"\x7d"

/-- Surroundings in which the validator is configured and answers with `code`. -/
def envAnswering (code : Nat) : Env where
  Getenv := fun k => if k = "TOKEN_VALIDATION_URL" then "http://auth/validate" else ""
  NewRequestOk := fun _ => true
  Do := fun _ _ => .resp code

/-- Surroundings in which `TOKEN_VALIDATION_URL` is not set. -/
def envUnset : Env where
  Getenv := fun _ => ""
  NewRequestOk := fun _ => true
  Do := fun _ _ => .resp 200

/-- A store whose lookup fails with a connectivity error while its insert
goes through. -/
def lookupFailingDB : DB (List URL) where
  First := fun _ _ => .error (.other "connection reset")
  Create := listDB.Create

/-- A store whose lookup works while its insert is refused. -/
def insertFailingDB : DB (List URL) where
  First := listDB.First
  Create := fun _ s => (some (.other "duplicate key value violates unique constraint"), s)

/-- The empty store with nothing issued yet. -/
def emptyWorld : World (List URL) := { store := [], trace := [] }

/-! ## What a middleware does with the handler behind it -/

/-- The middleware hands the request, unchanged, to the handler behind it in
the world `w'` and returns whatever that handler returns. -/
def Forwards {σ : Type} (m : Handler σ → Handler σ) (r : Request) (w w' : World σ) : Prop :=
  ∀ next : Handler σ, m next r w = next r w'

/-- The middleware ends the request itself with outcome `o` in the world `w'`,
whatever the handler behind it is. -/
def Stops {σ : Type} (m : Handler σ → Handler σ) (r : Request) (w : World σ)
    (o : Outcome) (w' : World σ) : Prop :=
  ∀ next : Handler σ, m next r w = (o, w')

/-! ## Auxiliary facts -/

theorem not_forwards_of_stops {σ : Type} (m : Handler σ → Handler σ) (r : Request)
    (w : World σ) (o : Outcome) (w1 : World σ) (h : Stops m r w o w1) :
    ¬ ∃ w2, Forwards m r w w2 := by
  rintro ⟨w2, hf⟩
  have h0 := (hf (fun _ v => (.exit 0, v))).symm.trans (h (fun _ v => (.exit 0, v)))
  have h1 := (hf (fun _ v => (.exit 1, v))).symm.trans (h (fun _ v => (.exit 1, v)))
  have e0 : Outcome.exit 0 = o := congrArg Prod.fst h0
  have e1 : Outcome.exit 1 = o := congrArg Prod.fst h1
  have := e0.trans e1.symm
  simp at this

theorem bearer_ne_empty (token : String) : "Bearer " ++ token ≠ "" := by
  intro h
  have := congrArg String.data h
  simp at this

theorem HasPrefix_bearer (token : String) : HasPrefix ("Bearer " ++ token) "Bearer " = true := by
  simp [HasPrefix]

theorem TrimPrefix_bearer (token : String) : TrimPrefix ("Bearer " ++ token) "Bearer " = token := by
  simp [TrimPrefix, HasPrefix_bearer]

theorem emit_emit {σ : Type} (w : World σ) (a b : List Event) :
    (w.emit a).emit b = w.emit (a ++ b) := by
  simp [World.emit]

theorem emit_store {σ : Type} (w : World σ) (a : List Event) : (w.emit a).store = w.store := rfl

theorem emit_trace {σ : Type} (w : World σ) (a : List Event) :
    (w.emit a).trace = w.trace ++ a := rfl

/-- The middleware on a header `"Bearer " ++ token` with the validation URL set:
request creation failing gives 500 before any call; otherwise the validator is
called once with the token, and its answer decides. -/
theorem AuthMiddleware_bearer {σ : Type} (env : Env) (next : Handler σ) (r : Request)
    (w : World σ) (token : String)
    (hH : r.Header.Get "Authorization" = "Bearer " ++ token)
    (hU : env.Getenv "TOKEN_VALIDATION_URL" ≠ "") :
    AuthMiddleware env next r w =
      if env.NewRequestOk (env.Getenv "TOKEN_VALIDATION_URL") = false then
        (.response (httpError "Failed to create validation request" 500),
          w.emit [.println (env.Getenv "TOKEN_VALIDATION_URL")])
      else
        match env.Do (env.Getenv "TOKEN_VALIDATION_URL") ("Bearer " ++ token) with
        | .resp 200 =>
          next r (w.emit [.println (env.Getenv "TOKEN_VALIDATION_URL"),
            .println (env.Getenv "TOKEN_VALIDATION_URL"),
            .clientDo (env.Getenv "TOKEN_VALIDATION_URL") ("Bearer " ++ token) (.resp 200),
            .println "token is valid"])
        | .resp code =>
          (.response (httpError "Unauthorized: Invalid token" 401),
            w.emit [.println (env.Getenv "TOKEN_VALIDATION_URL"),
              .println (env.Getenv "TOKEN_VALIDATION_URL"),
              .clientDo (env.Getenv "TOKEN_VALIDATION_URL") ("Bearer " ++ token) (.resp code)])
        | .err e =>
          (.response (httpError "Failed to validate token" 401),
            w.emit [.println (env.Getenv "TOKEN_VALIDATION_URL"),
              .println (env.Getenv "TOKEN_VALIDATION_URL"),
              .clientDo (env.Getenv "TOKEN_VALIDATION_URL") ("Bearer " ++ token) (.err e)]) := by
  unfold AuthMiddleware
  simp only [hH, HasPrefix_bearer, TrimPrefix_bearer, bearer_ne_empty, hU, emit_emit,
    StatusUnauthorized, StatusInternalServerError, StatusOK]
  simp only [not_true_eq_false, or_self, if_false, List.singleton_append, List.cons_append,
    List.nil_append]
  by_cases hN : env.NewRequestOk (env.Getenv "TOKEN_VALIDATION_URL") = false
  · simp [hN]
  · simp only [hN, if_false]
    cases hD : env.Do (env.Getenv "TOKEN_VALIDATION_URL") ("Bearer " ++ token) with
    | err e => simp
    | resp code =>
      by_cases hc : code = 200
      · subst hc; simp
      · simp [hc]

theorem AuthMiddleware_stops_request_creation {σ : Type} (env : Env) (r : Request)
    (w : World σ) (token : String)
    (hH : r.Header.Get "Authorization" = "Bearer " ++ token)
    (hU : env.Getenv "TOKEN_VALIDATION_URL" ≠ "")
    (hN : env.NewRequestOk (env.Getenv "TOKEN_VALIDATION_URL") = false) :
    Stops (AuthMiddleware env) r w
      (.response (httpError "Failed to create validation request" 500))
      (w.emit [.println (env.Getenv "TOKEN_VALIDATION_URL")]) := by
  intro next
  rw [AuthMiddleware_bearer env next r w token hH hU]
  simp [hN]

theorem AuthMiddleware_forwards_valid {σ : Type} (env : Env) (r : Request)
    (w : World σ) (token : String)
    (hH : r.Header.Get "Authorization" = "Bearer " ++ token)
    (hU : env.Getenv "TOKEN_VALIDATION_URL" ≠ "")
    (hN : env.NewRequestOk (env.Getenv "TOKEN_VALIDATION_URL") = true)
    (hD : env.Do (env.Getenv "TOKEN_VALIDATION_URL") ("Bearer " ++ token) = .resp 200) :
    Forwards (AuthMiddleware env) r w
      (w.emit [.println (env.Getenv "TOKEN_VALIDATION_URL"),
        .println (env.Getenv "TOKEN_VALIDATION_URL"),
        .clientDo (env.Getenv "TOKEN_VALIDATION_URL") ("Bearer " ++ token) (.resp 200),
        .println "token is valid"]) := by
  intro next
  rw [AuthMiddleware_bearer env next r w token hH hU]
  simp [hN, hD]

theorem AuthMiddleware_stops_invalid {σ : Type} (env : Env) (r : Request)
    (w : World σ) (token : String)
    (hH : r.Header.Get "Authorization" = "Bearer " ++ token)
    (hU : env.Getenv "TOKEN_VALIDATION_URL" ≠ "")
    (hN : env.NewRequestOk (env.Getenv "TOKEN_VALIDATION_URL") = true)
    (hD : env.Do (env.Getenv "TOKEN_VALIDATION_URL") ("Bearer " ++ token) ≠ .resp 200) :
    ∃ msg, Stops (AuthMiddleware env) r w (.response (httpError msg 401))
      (w.emit [.println (env.Getenv "TOKEN_VALIDATION_URL"),
        .println (env.Getenv "TOKEN_VALIDATION_URL"),
        .clientDo (env.Getenv "TOKEN_VALIDATION_URL") ("Bearer " ++ token)
          (env.Do (env.Getenv "TOKEN_VALIDATION_URL") ("Bearer " ++ token))]) := by
  cases hR : env.Do (env.Getenv "TOKEN_VALIDATION_URL") ("Bearer " ++ token) with
  | err e =>
    refine ⟨"Failed to validate token", fun next => ?_⟩
    rw [AuthMiddleware_bearer env next r w token hH hU]
    simp [hN, hR]
  | resp code =>
    have hc : code ≠ 200 := by
      intro hc
      exact hD (by rw [hR, hc])
    refine ⟨"Unauthorized: Invalid token", fun next => ?_⟩
    rw [AuthMiddleware_bearer env next r w token hH hU]
    simp only [hN, hR]
    split
    · simp at *
    · rfl

theorem AuthMiddleware_forwards_iff {σ : Type} (env : Env) (r : Request)
    (w : World σ) (token : String)
    (hH : r.Header.Get "Authorization" = "Bearer " ++ token)
    (hU : env.Getenv "TOKEN_VALIDATION_URL" ≠ "") :
    (∃ w', Forwards (AuthMiddleware env) r w w') ↔
      (env.NewRequestOk (env.Getenv "TOKEN_VALIDATION_URL") = true ∧
        env.Do (env.Getenv "TOKEN_VALIDATION_URL") ("Bearer " ++ token) = .resp 200) := by
  constructor
  · intro hf
    by_cases hN : env.NewRequestOk (env.Getenv "TOKEN_VALIDATION_URL") = true
    · refine ⟨hN, ?_⟩
      by_contra hD
      obtain ⟨msg, hs⟩ := AuthMiddleware_stops_invalid env r w token hH hU hN hD
      exact not_forwards_of_stops _ _ _ _ _ hs hf
    · have hN' : env.NewRequestOk (env.Getenv "TOKEN_VALIDATION_URL") = false := by
        simpa using hN
      exact absurd hf (not_forwards_of_stops _ _ _ _ _
        (AuthMiddleware_stops_request_creation env r w token hH hU hN'))
  · rintro ⟨hN, hD⟩
    exact ⟨_, AuthMiddleware_forwards_valid env r w token hH hU hN hD⟩

/-! ### The track handler over the list store -/

theorem listDB_First_absent (u : String) (s : List URL)
    (h : ∀ rec ∈ s, rec.TargetURL ≠ u) : listDB.First u s = .error .recordNotFound := by
  have hf : s.find? (fun rec => decide (rec.TargetURL = u)) = none := by
    rw [List.find?_eq_none]
    intro rec hrec
    simpa using h rec hrec
  simp [listDB, hf]

theorem listDB_First_present (u : String) (s : List URL)
    (h : ∃ rec ∈ s, rec.TargetURL = u) : ∃ rec, listDB.First u s = .ok rec := by
  cases hf : s.find? (fun rec => decide (rec.TargetURL = u)) with
  | none =>
    rw [List.find?_eq_none] at hf
    obtain ⟨rec, hrec, he⟩ := h
    exact absurd he (by simpa using hf rec hrec)
  | some rec => exact ⟨rec, by simp [listDB, hf]⟩

theorem TrackURLHandler_listDB_found {σ : Type} (jsonDecode : String → Option TrackRequest)
    (d : DB σ) (r : Request) (w : World σ) (req : TrackRequest) (rec : URL)
    (hdec : jsonDecode r.Body = some req) (hne : req.TargetURL ≠ "")
    (hf : d.First req.TargetURL w.store = .ok rec) :
    TrackURLHandler jsonDecode (some d) r w =
      (.response (httpError "URL already exists" 409), w.emit [.dbFirst req.TargetURL]) := by
  simp [TrackURLHandler, hdec, hne, emit_store, hf, StatusConflict]

theorem TrackURLHandler_not_found {σ : Type} (jsonDecode : String → Option TrackRequest)
    (d : DB σ) (r : Request) (w : World σ) (req : TrackRequest) (e : DbError)
    (hdec : jsonDecode r.Body = some req) (hne : req.TargetURL ≠ "")
    (hf : d.First req.TargetURL w.store = .error e) :
    TrackURLHandler jsonDecode (some d) r w =
      (match (d.Create { ID := 0, TargetURL := req.TargetURL } w.store).1 with
        | some _ => .response (httpError "Failed to save target URL" 500)
        | none => .response ⟨201, "\x7b\"message\":\"URL tracked successfully\"\x7d\n"⟩,
       { store := (d.Create { ID := 0, TargetURL := req.TargetURL } w.store).2,
         trace := w.trace ++ [.dbFirst req.TargetURL, .dbCreate req.TargetURL] }) := by
  simp only [TrackURLHandler, hdec, hne, emit_store, hf, emit_trace, if_false,
    StatusInternalServerError, StatusCreated, List.append_assoc, List.singleton_append]
  cases (d.Create { ID := 0, TargetURL := req.TargetURL } w.store).1 <;> rfl

theorem UniqueTargets_append (s : List URL) (n : Nat) (u : String)
    (hs : UniqueTargets s) (h : ∀ rec ∈ s, rec.TargetURL ≠ u) :
    UniqueTargets (s ++ [{ ID := n, TargetURL := u }]) := by
  unfold UniqueTargets at *
  rw [List.map_append, List.nodup_append]
  refine ⟨hs, by simp, ?_⟩
  intro a ha hb
  simp only [List.map_cons, List.map_nil, List.mem_singleton] at hb
  obtain ⟨rec, hrec, he⟩ := List.mem_map.1 ha
  exact h rec hrec (he.trans hb)

theorem TrackURLHandler_listDB_store (jsonDecode : String → Option TrackRequest)
    (r : Request) (w : World (List URL)) :
    (TrackURLHandler jsonDecode (some listDB) r w).2.store = w.store ∨
      ∃ u, (∀ rec ∈ w.store, rec.TargetURL ≠ u) ∧
        (TrackURLHandler jsonDecode (some listDB) r w).2.store
          = w.store ++ [{ ID := w.store.length + 1, TargetURL := u }] := by
  cases hdec : jsonDecode r.Body with
  | none => left; simp [TrackURLHandler, hdec]
  | some req =>
    by_cases hne : req.TargetURL = ""
    · left; simp [TrackURLHandler, hdec, hne]
    · cases hf : listDB.First req.TargetURL w.store with
      | ok rec =>
        left
        rw [TrackURLHandler_listDB_found jsonDecode listDB r w req rec hdec hne hf]
        rfl
      | error e =>
        right
        refine ⟨req.TargetURL, ?_, ?_⟩
        · intro rec hrec he
          obtain ⟨rec', hrec'⟩ := listDB_First_present req.TargetURL w.store ⟨rec, hrec, he⟩
          rw [hf] at hrec'
          cases hrec'
        · rw [TrackURLHandler_not_found jsonDecode listDB r w req e hdec hne hf]
          rfl

theorem TrackURLHandler_never_exits {σ : Type} (jsonDecode : String → Option TrackRequest)
    (db : Option (DB σ)) (r : Request) (w : World σ) :
    ∃ a, (TrackURLHandler jsonDecode db r w).1 = .response a := by
  unfold TrackURLHandler
  cases jsonDecode r.Body with
  | none => exact ⟨_, rfl⟩
  | some req =>
    by_cases hne : req.TargetURL = ""
    · simp [hne]
    · cases db with
      | none => simp [hne]
      | some d =>
        simp only [hne, if_false]
        cases d.First req.TargetURL (w.emit [.dbFirst req.TargetURL]).store with
        | ok rec => exact ⟨_, rfl⟩
        | error e =>
          simp only []
          cases (d.Create { ID := 0, TargetURL := req.TargetURL }
            (w.emit [.dbFirst req.TargetURL]).store).1 with
          | none => exact ⟨_, rfl⟩
          | some e' => exact ⟨_, rfl⟩

theorem TrackURLHandler_preserves_unique (jsonDecode : String → Option TrackRequest)
    (r : Request) (w : World (List URL)) (h : UniqueTargets w.store) :
    UniqueTargets (TrackURLHandler jsonDecode (some listDB) r w).2.store := by
  rcases TrackURLHandler_listDB_store jsonDecode r w with he | ⟨u, habs, he⟩
  · rw [he]; exact h
  · rw [he]; exact UniqueTargets_append _ _ _ h habs

theorem serve_preserves_unique (jsonDecode : String → Option TrackRequest)
    (rs : List Request) (w : World (List URL)) (h : UniqueTargets w.store) :
    UniqueTargets (serve (TrackURLHandler jsonDecode (some listDB)) rs w).2.store := by
  induction rs generalizing w with
  | nil => exact h
  | cons r rs ih =>
    have hstep := TrackURLHandler_preserves_unique jsonDecode r w h
    obtain ⟨a, ha⟩ := TrackURLHandler_never_exits jsonDecode (some listDB) r w
    have hpair : TrackURLHandler jsonDecode (some listDB) r w
        = (.response a, (TrackURLHandler jsonDecode (some listDB) r w).2) := by
      rw [← ha]
    simp only [serve]
    rw [hpair]
    exact ih _ hstep

/-! ### The `/track/` route with a validator that accepts the token -/

theorem trackRoute_valid {σ : Type} (env : Env) (jsonDecode : String → Option TrackRequest)
    (db : Option (DB σ)) (r : Request) (w : World σ) (token : String)
    (hH : r.Header.Get "Authorization" = "Bearer " ++ token)
    (hU : env.Getenv "TOKEN_VALIDATION_URL" ≠ "")
    (hN : env.NewRequestOk (env.Getenv "TOKEN_VALIDATION_URL") = true)
    (hD : env.Do (env.Getenv "TOKEN_VALIDATION_URL") ("Bearer " ++ token) = .resp 200) :
    trackRoute env jsonDecode db r w =
      TrackURLHandler jsonDecode db r
        (w.emit [.println (env.Getenv "TOKEN_VALIDATION_URL"),
          .println (env.Getenv "TOKEN_VALIDATION_URL"),
          .clientDo (env.Getenv "TOKEN_VALIDATION_URL") ("Bearer " ++ token) (.resp 200),
          .println "token is valid"]) :=
  AuthMiddleware_forwards_valid env r w token hH hU hN hD _

theorem countTarget_absent (u : String) (s : List URL)
    (h : ∀ rec ∈ s, rec.TargetURL ≠ u) : countTarget u s = 0 := by
  unfold countTarget
  rw [List.length_eq_zero, List.filter_eq_nil_iff]
  intro rec hrec
  simpa using h rec hrec

theorem countTarget_append_new (u : String) (s : List URL) (n : Nat)
    (h : ∀ rec ∈ s, rec.TargetURL ≠ u) :
    countTarget u (s ++ [{ ID := n, TargetURL := u }]) = 1 := by
  have h0 := countTarget_absent u s h
  unfold countTarget at *
  rw [List.filter_append, List.length_append, h0]
  simp

theorem serve_replicate_present (env : Env) (jsonDecode : String → Option TrackRequest)
    (r : Request) (token u : String)
    (hH : r.Header.Get "Authorization" = "Bearer " ++ token)
    (hU : env.Getenv "TOKEN_VALIDATION_URL" ≠ "")
    (hN : env.NewRequestOk (env.Getenv "TOKEN_VALIDATION_URL") = true)
    (hD : env.Do (env.Getenv "TOKEN_VALIDATION_URL") ("Bearer " ++ token) = .resp 200)
    (hdec : jsonDecode r.Body = some { TargetURL := u }) (hu : u ≠ "")
    (n : Nat) (w : World (List URL)) (hp : ∃ rec ∈ w.store, rec.TargetURL = u) :
    (serve (trackRoute env jsonDecode (some listDB)) (List.replicate n r) w).1
        = List.replicate n (.response (httpError "URL already exists" 409))
      ∧ (serve (trackRoute env jsonDecode (some listDB)) (List.replicate n r) w).2.store
        = w.store := by
  induction n generalizing w with
  | zero => exact ⟨rfl, rfl⟩
  | succ n ih =>
    obtain ⟨rec, hrec⟩ := listDB_First_present u w.store hp
    have hstep := trackRoute_valid env jsonDecode (some listDB) r w token hH hU hN hD
    rw [TrackURLHandler_listDB_found jsonDecode listDB r _ { TargetURL := u } rec hdec hu
      (by simpa [emit_store] using hrec)] at hstep
    simp only [List.replicate_succ, serve, hstep]
    have := ih (((w.emit [.println (env.Getenv "TOKEN_VALIDATION_URL"),
          .println (env.Getenv "TOKEN_VALIDATION_URL"),
          .clientDo (env.Getenv "TOKEN_VALIDATION_URL") ("Bearer " ++ token) (.resp 200),
          .println "token is valid"]).emit [.dbFirst u])) (by simpa [emit_store] using hp)
    exact ⟨by rw [this.1], by rw [this.2]; rfl⟩

/-! ## Health endpoint -/

/-- C10: for every request (any method, headers, body) and every state of the
store and trace, `HealthCheckHandler` writes status 200 with exactly the body
"Service is up and running", and leaves the world as it was: no store query and
no validator call is issued. -/
theorem HealthCheckHandler_fixed_response {σ : Type} (r : Request) (w : World σ) :
    (HealthCheckHandler r w).1 = .response { status := 200, body := "Service is up and running" }
      ∧ (HealthCheckHandler r w).2 = w
      ∧ (HealthCheckHandler r w).2.trace = w.trace
      ∧ (HealthCheckHandler r w).2.store = w.store :=
  ⟨rfl, rfl, rfl, rfl⟩

/-! ## Track endpoint: validation -/

/-- C2: when the body fails to decode, or decodes with an empty target URL,
`TrackURLHandler` answers 400 for every store state and every handle (the nil
handle included), and the world is unchanged: the store is as before and
neither a lookup nor an insert has been added to the trace. -/
theorem TrackURLHandler_bad_request {σ : Type} (jsonDecode : String → Option TrackRequest)
    (db : Option (DB σ)) (r : Request) (w : World σ)
    (h : jsonDecode r.Body = none ∨
      ∃ req, jsonDecode r.Body = some req ∧ req.TargetURL = "") :
    (TrackURLHandler jsonDecode db r w).1.status? = some 400
      ∧ (TrackURLHandler jsonDecode db r w).2 = w
      ∧ (TrackURLHandler jsonDecode db r w).2.store = w.store
      ∧ (TrackURLHandler jsonDecode db r w).2.trace = w.trace := by
  rcases h with h | ⟨req, h, he⟩
  · simp [TrackURLHandler, h, Outcome.status?, httpError, StatusBadRequest]
  · simp [TrackURLHandler, h, he, Outcome.status?, httpError, StatusBadRequest]

/-- The empty-target scenario: 400 and nothing issued to the store. -/
theorem TrackURLHandler_bad_request_witness :
    (TrackURLHandler exampleDecode (some listDB)
        (postTrack "Bearer t0" "\x7b\"target_url\": \"\"\x7d") emptyWorld).1.status? = some 400
      ∧ (TrackURLHandler exampleDecode (some listDB)
        (postTrack "Bearer t0" "\x7b\"target_url\": \"\"\x7d") emptyWorld).2 = emptyWorld
      ∧ (TrackURLHandler exampleDecode (some listDB)
        (postTrack "Bearer t0" "\x7b\"target_url\": \"\"\x7d") emptyWorld).2.store
          = emptyWorld.store
      ∧ (TrackURLHandler exampleDecode (some listDB)
        (postTrack "Bearer t0" "\x7b\"target_url\": \"\"\x7d") emptyWorld).2.trace
          = emptyWorld.trace :=
  TrackURLHandler_bad_request exampleDecode (some listDB)
    (postTrack "Bearer t0" "\x7b\"target_url\": \"\"\x7d") emptyWorld
    (Or.inr ⟨{ TargetURL := "" }, by decide, rfl⟩)

/-! ## Auth gate -/

/-- C3: when the `Authorization` header is absent (empty) or does not start
with "Bearer ", `AuthMiddleware` answers 401 whatever the handler behind it is
(so that handler is not invoked), in an unchanged world (so no validator call is
in the trace); on the `/track/` route the track handler is therefore not reached
and the store is as before. -/
theorem AuthMiddleware_rejects_without_bearer {σ : Type} (env : Env) (r : Request)
    (w : World σ) (jsonDecode : String → Option TrackRequest) (db : Option (DB σ))
    (h : r.Header.Get "Authorization" = "" ∨
      HasPrefix (r.Header.Get "Authorization") "Bearer " = false) :
    Stops (AuthMiddleware env) r w
        (.response (httpError "Missing or invalid Authorization header" 401)) w
      ∧ (¬ ∃ w', Forwards (AuthMiddleware env) r w w')
      ∧ (trackRoute env jsonDecode db r w).1.status? = some 401
      ∧ (trackRoute env jsonDecode db r w).2.store = w.store
      ∧ (trackRoute env jsonDecode db r w).2.trace = w.trace := by
  have hs : Stops (AuthMiddleware env) r w
      (.response (httpError "Missing or invalid Authorization header" 401)) w := by
    intro next
    unfold AuthMiddleware
    rcases h with h | h <;> simp [h, StatusUnauthorized]
  refine ⟨hs, not_forwards_of_stops _ _ _ _ _ hs, ?_, ?_, ?_⟩
  · simp [trackRoute, hs _, Outcome.status?, httpError]
  · simp [trackRoute, hs _]
  · simp [trackRoute, hs _]

/-- A request carrying basic credentials instead of a bearer token. -/
theorem AuthMiddleware_rejects_without_bearer_witness :
    Stops (AuthMiddleware (envAnswering 200))
        (postTrack "Basic dXNlcjpwdw==" "\x7b\"target_url\": \"https://example.com\"\x7d")
        emptyWorld
        (.response (httpError "Missing or invalid Authorization header" 401)) emptyWorld
      ∧ (¬ ∃ w', Forwards (AuthMiddleware (envAnswering 200))
        (postTrack "Basic dXNlcjpwdw==" "\x7b\"target_url\": \"https://example.com\"\x7d")
        emptyWorld w')
      ∧ (trackRoute (envAnswering 200) exampleDecode (some listDB)
        (postTrack "Basic dXNlcjpwdw==" "\x7b\"target_url\": \"https://example.com\"\x7d")
        emptyWorld).1.status? = some 401
      ∧ (trackRoute (envAnswering 200) exampleDecode (some listDB)
        (postTrack "Basic dXNlcjpwdw==" "\x7b\"target_url\": \"https://example.com\"\x7d")
        emptyWorld).2.store = emptyWorld.store
      ∧ (trackRoute (envAnswering 200) exampleDecode (some listDB)
        (postTrack "Basic dXNlcjpwdw==" "\x7b\"target_url\": \"https://example.com\"\x7d")
        emptyWorld).2.trace = emptyWorld.trace :=
  AuthMiddleware_rejects_without_bearer (envAnswering 200)
    (postTrack "Basic dXNlcjpwdw==" "\x7b\"target_url\": \"https://example.com\"\x7d")
    emptyWorld exampleDecode (some listDB) (Or.inr (by decide))

/-- C4: on a header "Bearer " followed by a token, with the validation URL
set, `AuthMiddleware` forwards to the handler behind it if and only if the
validator call is made and completes with status exactly 200; then the request
goes on unchanged.  When the call completes with any other status, or fails with
a transport or timeout error, the middleware answers 401 whatever the handler
behind it is, the call being the last effect in the trace. -/
theorem AuthMiddleware_validator_decides {σ : Type} (env : Env) (r : Request)
    (w : World σ) (token : String)
    (hH : r.Header.Get "Authorization" = "Bearer " ++ token)
    (hU : env.Getenv "TOKEN_VALIDATION_URL" ≠ "") :
    ((∃ w', Forwards (AuthMiddleware env) r w w') ↔
        (env.NewRequestOk (env.Getenv "TOKEN_VALIDATION_URL") = true ∧
          env.Do (env.Getenv "TOKEN_VALIDATION_URL") ("Bearer " ++ token) = .resp 200))
      ∧ (env.NewRequestOk (env.Getenv "TOKEN_VALIDATION_URL") = true →
          env.Do (env.Getenv "TOKEN_VALIDATION_URL") ("Bearer " ++ token) = .resp 200 →
          Forwards (AuthMiddleware env) r w
            (w.emit [.println (env.Getenv "TOKEN_VALIDATION_URL"),
              .println (env.Getenv "TOKEN_VALIDATION_URL"),
              .clientDo (env.Getenv "TOKEN_VALIDATION_URL") ("Bearer " ++ token) (.resp 200),
              .println "token is valid"]))
      ∧ (env.NewRequestOk (env.Getenv "TOKEN_VALIDATION_URL") = true →
          ∀ res, env.Do (env.Getenv "TOKEN_VALIDATION_URL") ("Bearer " ++ token) = res →
          res ≠ .resp 200 →
          (∃ msg, Stops (AuthMiddleware env) r w (.response (httpError msg 401))
            (w.emit [.println (env.Getenv "TOKEN_VALIDATION_URL"),
              .println (env.Getenv "TOKEN_VALIDATION_URL"),
              .clientDo (env.Getenv "TOKEN_VALIDATION_URL") ("Bearer " ++ token) res]))
          ∧ ¬ ∃ w', Forwards (AuthMiddleware env) r w w') := by
  refine ⟨AuthMiddleware_forwards_iff env r w token hH hU,
    AuthMiddleware_forwards_valid env r w token hH hU, ?_⟩
  intro hN res hres hne
  subst hres
  obtain ⟨msg, hs⟩ := AuthMiddleware_stops_invalid env r w token hH hU hN hne
  exact ⟨⟨msg, hs⟩, not_forwards_of_stops _ _ _ _ _ hs⟩

/-- The scenario of a validator answering 503. -/
theorem AuthMiddleware_validator_decides_witness :
    ((∃ w', Forwards (AuthMiddleware (envAnswering 503)) exampleRequest emptyWorld w') ↔
        ((envAnswering 503).NewRequestOk ((envAnswering 503).Getenv "TOKEN_VALIDATION_URL") = true ∧
          (envAnswering 503).Do ((envAnswering 503).Getenv "TOKEN_VALIDATION_URL")
            ("Bearer " ++ "t0") = .resp 200))
      ∧ ((envAnswering 503).NewRequestOk ((envAnswering 503).Getenv "TOKEN_VALIDATION_URL") = true →
          (envAnswering 503).Do ((envAnswering 503).Getenv "TOKEN_VALIDATION_URL")
            ("Bearer " ++ "t0") = .resp 200 →
          Forwards (AuthMiddleware (envAnswering 503)) exampleRequest emptyWorld
            (emptyWorld.emit [.println ((envAnswering 503).Getenv "TOKEN_VALIDATION_URL"),
              .println ((envAnswering 503).Getenv "TOKEN_VALIDATION_URL"),
              .clientDo ((envAnswering 503).Getenv "TOKEN_VALIDATION_URL") ("Bearer " ++ "t0")
                (.resp 200),
              .println "token is valid"]))
      ∧ ((envAnswering 503).NewRequestOk ((envAnswering 503).Getenv "TOKEN_VALIDATION_URL") = true →
          ∀ res, (envAnswering 503).Do ((envAnswering 503).Getenv "TOKEN_VALIDATION_URL")
            ("Bearer " ++ "t0") = res →
          res ≠ .resp 200 →
          (∃ msg, Stops (AuthMiddleware (envAnswering 503)) exampleRequest emptyWorld
            (.response (httpError msg 401))
            (emptyWorld.emit [.println ((envAnswering 503).Getenv "TOKEN_VALIDATION_URL"),
              .println ((envAnswering 503).Getenv "TOKEN_VALIDATION_URL"),
              .clientDo ((envAnswering 503).Getenv "TOKEN_VALIDATION_URL") ("Bearer " ++ "t0")
                res]))
          ∧ ¬ ∃ w', Forwards (AuthMiddleware (envAnswering 503)) exampleRequest emptyWorld w') :=
  AuthMiddleware_validator_decides (envAnswering 503) exampleRequest emptyWorld "t0"
    (by decide) (by decide)

/-- C5 (fails as stated): with the header exactly "Bearer " and a validator
answering 200, the middleware forwards the request, and the `/track/` route
answers 201 and stores the record. -/
theorem empty_token_is_forwarded :
    (postTrack "Bearer " "\x7b\"target_url\": \"https://example.com\"\x7d").Header.Get
        "Authorization" = "Bearer "
      ∧ Forwards (AuthMiddleware (envAnswering 200))
        (postTrack "Bearer " "\x7b\"target_url\": \"https://example.com\"\x7d")
        emptyWorld
        (emptyWorld.emit [.println "http://auth/validate", .println "http://auth/validate",
          .clientDo "http://auth/validate" "Bearer " (.resp 200), .println "token is valid"])
      ∧ (trackRoute (envAnswering 200) exampleDecode (some listDB)
        (postTrack "Bearer " "\x7b\"target_url\": \"https://example.com\"\x7d")
        emptyWorld).1.status? = some 201
      ∧ (trackRoute (envAnswering 200) exampleDecode (some listDB)
        (postTrack "Bearer " "\x7b\"target_url\": \"https://example.com\"\x7d")
        emptyWorld).1.status? ≠ some 401
      ∧ (trackRoute (envAnswering 200) exampleDecode (some listDB)
        (postTrack "Bearer " "\x7b\"target_url\": \"https://example.com\"\x7d")
        emptyWorld).2.store = [{ ID := 1, TargetURL := "https://example.com" }] := by
  refine ⟨by decide, ?_, by decide, by decide, by decide⟩
  intro next
  rfl

/-- C5 (amended): on the header exactly "Bearer ", with the validation URL set
and the validation request created, `AuthMiddleware` does not reject the empty
token itself: it calls the validator with the header "Bearer " and forwards to
the handler behind it if and only if the validator answers exactly 200; on any
other answer it responds 401 whatever the handler behind it is. -/
theorem AuthMiddleware_empty_token {σ : Type} (env : Env) (r : Request) (w : World σ)
    (hH : r.Header.Get "Authorization" = "Bearer ")
    (hU : env.Getenv "TOKEN_VALIDATION_URL" ≠ "")
    (hN : env.NewRequestOk (env.Getenv "TOKEN_VALIDATION_URL") = true) :
    ((∃ w', Forwards (AuthMiddleware env) r w w') ↔
        env.Do (env.Getenv "TOKEN_VALIDATION_URL") "Bearer " = .resp 200)
      ∧ (env.Do (env.Getenv "TOKEN_VALIDATION_URL") "Bearer " = .resp 200 →
          Forwards (AuthMiddleware env) r w
            (w.emit [.println (env.Getenv "TOKEN_VALIDATION_URL"),
              .println (env.Getenv "TOKEN_VALIDATION_URL"),
              .clientDo (env.Getenv "TOKEN_VALIDATION_URL") "Bearer " (.resp 200),
              .println "token is valid"]))
      ∧ (env.Do (env.Getenv "TOKEN_VALIDATION_URL") "Bearer " ≠ .resp 200 →
          ∃ msg, Stops (AuthMiddleware env) r w (.response (httpError msg 401))
            (w.emit [.println (env.Getenv "TOKEN_VALIDATION_URL"),
              .println (env.Getenv "TOKEN_VALIDATION_URL"),
              .clientDo (env.Getenv "TOKEN_VALIDATION_URL") "Bearer "
                (env.Do (env.Getenv "TOKEN_VALIDATION_URL") "Bearer ")])) := by
  have hE : "Bearer " ++ "" = "Bearer " := by decide
  have hH' : r.Header.Get "Authorization" = "Bearer " ++ "" := by rw [hE]; exact hH
  have h1 := AuthMiddleware_forwards_iff env r w "" hH' hU
  have h2 := AuthMiddleware_forwards_valid env r w "" hH' hU hN
  have h3 := AuthMiddleware_stops_invalid env r w "" hH' hU hN
  rw [hE] at h1 h2 h3
  exact ⟨by rw [h1]; simp [hN], h2, h3⟩

/-- The empty token with a validator answering 204. -/
theorem AuthMiddleware_empty_token_witness :
    ((∃ w', Forwards (AuthMiddleware (envAnswering 204))
          (postTrack "Bearer " "\x7b\"target_url\": \"https://example.com\"\x7d")
          emptyWorld w') ↔
        (envAnswering 204).Do ((envAnswering 204).Getenv "TOKEN_VALIDATION_URL") "Bearer "
          = .resp 200)
      ∧ ((envAnswering 204).Do ((envAnswering 204).Getenv "TOKEN_VALIDATION_URL") "Bearer "
            = .resp 200 →
          Forwards (AuthMiddleware (envAnswering 204))
            (postTrack "Bearer " "\x7b\"target_url\": \"https://example.com\"\x7d")
            emptyWorld
            (emptyWorld.emit [.println ((envAnswering 204).Getenv "TOKEN_VALIDATION_URL"),
              .println ((envAnswering 204).Getenv "TOKEN_VALIDATION_URL"),
              .clientDo ((envAnswering 204).Getenv "TOKEN_VALIDATION_URL") "Bearer " (.resp 200),
              .println "token is valid"]))
      ∧ ((envAnswering 204).Do ((envAnswering 204).Getenv "TOKEN_VALIDATION_URL") "Bearer "
            ≠ .resp 200 →
          ∃ msg, Stops (AuthMiddleware (envAnswering 204))
            (postTrack "Bearer " "\x7b\"target_url\": \"https://example.com\"\x7d")
            emptyWorld (.response (httpError msg 401))
            (emptyWorld.emit [.println ((envAnswering 204).Getenv "TOKEN_VALIDATION_URL"),
              .println ((envAnswering 204).Getenv "TOKEN_VALIDATION_URL"),
              .clientDo ((envAnswering 204).Getenv "TOKEN_VALIDATION_URL") "Bearer "
                ((envAnswering 204).Do ((envAnswering 204).Getenv "TOKEN_VALIDATION_URL")
                  "Bearer ")])) :=
  AuthMiddleware_empty_token (envAnswering 204)
    (postTrack "Bearer " "\x7b\"target_url\": \"https://example.com\"\x7d") emptyWorld
    (by decide) (by decide) (by decide)

/-- C6 (the code departs from the claim): on a request with the header
"Bearer t0" while `TOKEN_VALIDATION_URL` is unset, `AuthMiddleware` ends in
`log.Fatal`, which exits the process with code 1; no response is written (so no
500), whatever the handler behind it is. -/
theorem AuthMiddleware_unset_url_exits :
    exampleRequest.Header.Get "Authorization" = "Bearer t0"
      ∧ envUnset.Getenv "TOKEN_VALIDATION_URL" = ""
      ∧ Stops (AuthMiddleware envUnset) exampleRequest emptyWorld (.exit 1)
        (emptyWorld.emit [.logFatal "TOKEN_VALIDATION_URL is not set"])
      ∧ (trackRoute envUnset exampleDecode (some listDB) exampleRequest emptyWorld).1
        = .exit 1
      ∧ (trackRoute envUnset exampleDecode (some listDB) exampleRequest emptyWorld).1.status?
        ≠ some 500 := by
  refine ⟨by decide, by decide, ?_, by decide, by decide⟩
  intro next
  rfl

/-! ## Track endpoint: lookup and insert -/

/-- C7 (the code departs from the claim): a well-formed request on a store
whose lookup fails with a connectivity error.  `TrackURLHandler` does not answer
500: it goes on to the insert, which goes through, and answers 201. -/
theorem TrackURLHandler_swallows_lookup_error :
    exampleDecode exampleRequest.Body = some { TargetURL := "https://example.com" }
      ∧ lookupFailingDB.First "https://example.com" emptyWorld.store
        = .error (.other "connection reset")
      ∧ (TrackURLHandler exampleDecode (some lookupFailingDB) exampleRequest emptyWorld).1
        = .response ⟨201, "\x7b\"message\":\"URL tracked successfully\"\x7d\n"⟩
      ∧ (TrackURLHandler exampleDecode (some lookupFailingDB) exampleRequest emptyWorld).2.trace
        = [.dbFirst "https://example.com", .dbCreate "https://example.com"]
      ∧ (TrackURLHandler exampleDecode (some lookupFailingDB) exampleRequest emptyWorld).2.store
        = [{ ID := 1, TargetURL := "https://example.com" }] := by
  refine ⟨by decide, rfl, by decide, by decide, by decide⟩

/-- C8: on a well-formed request whose lookup finds no record, an insert that
returns an error gives the 500 response "Failed to save target URL", never 201;
and the answer is 201 exactly when the insert returned no error. -/
theorem TrackURLHandler_insert_error {σ : Type} (jsonDecode : String → Option TrackRequest)
    (d : DB σ) (r : Request) (w : World σ) (req : TrackRequest) (e : DbError)
    (hdec : jsonDecode r.Body = some req) (hne : req.TargetURL ≠ "")
    (hf : d.First req.TargetURL w.store = .error e) :
    (∀ err, (d.Create { ID := 0, TargetURL := req.TargetURL } w.store).1 = some err →
        (TrackURLHandler jsonDecode (some d) r w).1
            = .response (httpError "Failed to save target URL" 500)
          ∧ (TrackURLHandler jsonDecode (some d) r w).1.status? = some 500
          ∧ (TrackURLHandler jsonDecode (some d) r w).1.status? ≠ some 201)
      ∧ ((TrackURLHandler jsonDecode (some d) r w).1.status? = some 201 ↔
        (d.Create { ID := 0, TargetURL := req.TargetURL } w.store).1 = none) := by
  rw [TrackURLHandler_not_found jsonDecode d r w req e hdec hne hf]
  cases hc : (d.Create { ID := 0, TargetURL := req.TargetURL } w.store).1 with
  | some err => simp [Outcome.status?, httpError]
  | none => simp [Outcome.status?]

/-- An insert refused by the store after a lookup that found nothing. -/
theorem TrackURLHandler_insert_error_witness :
    (TrackURLHandler exampleDecode (some insertFailingDB) exampleRequest emptyWorld).1
        = .response (httpError "Failed to save target URL" 500)
      ∧ (TrackURLHandler exampleDecode (some insertFailingDB) exampleRequest
          emptyWorld).1.status? = some 500
      ∧ (TrackURLHandler exampleDecode (some insertFailingDB) exampleRequest
          emptyWorld).1.status? ≠ some 201 :=
  (TrackURLHandler_insert_error exampleDecode insertFailingDB exampleRequest emptyWorld
    { TargetURL := "https://example.com" } .recordNotFound
    (by decide) (by decide) rfl).1
    (.other "duplicate key value violates unique constraint") rfl

/-! ## The duplicate-prevention invariant -/

/-- C9: over the list store (lookup by exact string equality, insert enforcing
nothing), "no two records share a target URL" is preserved by every
`TrackURLHandler` request, whatever its body decodes to, hence by every finite
sequence of requests, and it holds after every sequence served from the empty
store; with the nil handle the world is untouched; and when a record with the
requested target URL is present the answer is 409 and the store is unchanged. -/
theorem TrackURLHandler_unique_invariant (jsonDecode : String → Option TrackRequest)
    (r : Request) (rs : List Request) (w : World (List URL))
    (h : UniqueTargets w.store) :
    UniqueTargets (TrackURLHandler jsonDecode (some listDB) r w).2.store
      ∧ (TrackURLHandler jsonDecode none r w).2 = w
      ∧ UniqueTargets (serve (TrackURLHandler jsonDecode (some listDB)) rs w).2.store
      ∧ (∀ tr, UniqueTargets
          (serve (TrackURLHandler jsonDecode (some listDB)) rs { store := [], trace := tr }).2.store)
      ∧ (∀ req, jsonDecode r.Body = some req → req.TargetURL ≠ "" →
          (∃ rec ∈ w.store, rec.TargetURL = req.TargetURL) →
          (TrackURLHandler jsonDecode (some listDB) r w).1
              = .response (httpError "URL already exists" 409)
            ∧ (TrackURLHandler jsonDecode (some listDB) r w).2.store = w.store
            ∧ (TrackURLHandler jsonDecode (some listDB) r w).2.trace
              = w.trace ++ [.dbFirst req.TargetURL]) := by
  refine ⟨TrackURLHandler_preserves_unique jsonDecode r w h, ?_,
    serve_preserves_unique jsonDecode rs w h,
    fun tr => serve_preserves_unique jsonDecode rs _ (by simp [UniqueTargets]), ?_⟩
  · cases hdec : jsonDecode r.Body with
    | none => simp [TrackURLHandler, hdec]
    | some req =>
      by_cases hne : req.TargetURL = "" <;> simp [TrackURLHandler, hdec, hne]
  · intro req hdec hne hp
    obtain ⟨rec, hrec⟩ := listDB_First_present req.TargetURL w.store hp
    rw [TrackURLHandler_listDB_found jsonDecode listDB r w req rec hdec hne hrec]
    exact ⟨rfl, rfl, rfl⟩

/-- A request for a target URL that is already stored. -/
theorem TrackURLHandler_unique_invariant_witness :
    UniqueTargets (TrackURLHandler exampleDecode (some listDB) exampleRequest
        { store := [{ ID := 1, TargetURL := "https://example.com" }], trace := [] }).2.store
      ∧ (TrackURLHandler exampleDecode (some listDB) exampleRequest
        { store := [{ ID := 1, TargetURL := "https://example.com" }], trace := [] }).1
          = .response (httpError "URL already exists" 409)
      ∧ (TrackURLHandler exampleDecode (some listDB) exampleRequest
        { store := [{ ID := 1, TargetURL := "https://example.com" }], trace := [] }).2.store
          = [{ ID := 1, TargetURL := "https://example.com" }] :=
  have h := TrackURLHandler_unique_invariant exampleDecode exampleRequest
    [exampleRequest, exampleRequest]
    { store := [{ ID := 1, TargetURL := "https://example.com" }], trace := [] }
    (by simp [UniqueTargets])
  have h5 := h.2.2.2.2 { TargetURL := "https://example.com" } (by decide) (by decide)
    ⟨{ ID := 1, TargetURL := "https://example.com" }, by simp, rfl⟩
  ⟨h.1, h5.1, h5.2.1⟩

/-! ## Repeating a track request -/

/-- C1: over the list store, with the validator configured and answering 200
for the token: for a non-empty target URL `u` with no record in the store and
`N ≥ 1`, serving the same well-formed `POST /track/` request for `u` through
`AuthMiddleware` and `TrackURLHandler` `N` times in sequence gives 201 for the
first and 409 for each of the other `N - 1`, and afterwards the store is the old
one with one record for `u` appended, so exactly one record has target URL `u`. -/
theorem trackRoute_repeated (env : Env) (jsonDecode : String → Option TrackRequest)
    (r : Request) (token u : String) (s : List URL) (tr : List Event) (N : Nat)
    (hH : r.Header.Get "Authorization" = "Bearer " ++ token)
    (hU : env.Getenv "TOKEN_VALIDATION_URL" ≠ "")
    (hN : env.NewRequestOk (env.Getenv "TOKEN_VALIDATION_URL") = true)
    (hD : env.Do (env.Getenv "TOKEN_VALIDATION_URL") ("Bearer " ++ token) = .resp 200)
    (hdec : jsonDecode r.Body = some { TargetURL := u }) (hu : u ≠ "")
    (habs : ∀ rec ∈ s, rec.TargetURL ≠ u) (hN1 : 1 ≤ N) :
    (serve (trackRoute env jsonDecode (some listDB)) (List.replicate N r)
        { store := s, trace := tr }).1
        = .response ⟨201, "\x7b\"message\":\"URL tracked successfully\"\x7d\n"⟩
          :: List.replicate (N - 1) (.response (httpError "URL already exists" 409))
      ∧ (serve (trackRoute env jsonDecode (some listDB)) (List.replicate N r)
        { store := s, trace := tr }).2.store = s ++ [{ ID := s.length + 1, TargetURL := u }]
      ∧ countTarget u (serve (trackRoute env jsonDecode (some listDB)) (List.replicate N r)
        { store := s, trace := tr }).2.store = 1 := by
  obtain ⟨n, rfl⟩ : ∃ n, N = n + 1 := ⟨N - 1, by omega⟩
  have hstep := trackRoute_valid env jsonDecode (some listDB) r
    { store := s, trace := tr } token hH hU hN hD
  rw [TrackURLHandler_not_found jsonDecode listDB r _ { TargetURL := u } .recordNotFound
    hdec hu (listDB_First_absent u s habs)] at hstep
  have hrest := serve_replicate_present env jsonDecode r token u hH hU hN hD hdec hu n
    { store := s ++ [{ ID := s.length + 1, TargetURL := u }],
      trace := (tr ++ [.println (env.Getenv "TOKEN_VALIDATION_URL"),
          .println (env.Getenv "TOKEN_VALIDATION_URL"),
          .clientDo (env.Getenv "TOKEN_VALIDATION_URL") ("Bearer " ++ token) (.resp 200),
          .println "token is valid"]) ++ [.dbFirst u, .dbCreate u] }
    ⟨{ ID := s.length + 1, TargetURL := u }, by simp, rfl⟩
  have hserve : serve (trackRoute env jsonDecode (some listDB)) (List.replicate (n + 1) r)
      { store := s, trace := tr }
      = (.response ⟨201, "\x7b\"message\":\"URL tracked successfully\"\x7d\n"⟩ ::
          (serve (trackRoute env jsonDecode (some listDB)) (List.replicate n r)
            { store := s ++ [{ ID := s.length + 1, TargetURL := u }],
              trace := (tr ++ [.println (env.Getenv "TOKEN_VALIDATION_URL"),
                .println (env.Getenv "TOKEN_VALIDATION_URL"),
                .clientDo (env.Getenv "TOKEN_VALIDATION_URL") ("Bearer " ++ token) (.resp 200),
                .println "token is valid"]) ++ [.dbFirst u, .dbCreate u] }).1,
         (serve (trackRoute env jsonDecode (some listDB)) (List.replicate n r)
            { store := s ++ [{ ID := s.length + 1, TargetURL := u }],
              trace := (tr ++ [.println (env.Getenv "TOKEN_VALIDATION_URL"),
                .println (env.Getenv "TOKEN_VALIDATION_URL"),
                .clientDo (env.Getenv "TOKEN_VALIDATION_URL") ("Bearer " ++ token) (.resp 200),
                .println "token is valid"]) ++ [.dbFirst u, .dbCreate u] }).2) := by
    simp only [List.replicate_succ, serve, hstep]
    rfl
  rw [hserve]
  refine ⟨?_, hrest.2, ?_⟩
  · simp only [hrest.1, Nat.add_sub_cancel]
  · simp only [hrest.2]
    exact countTarget_append_new u s _ habs

/-- The tracking scenario repeated three times from the empty store. -/
theorem trackRoute_repeated_witness :
    (serve (trackRoute (envAnswering 200) exampleDecode (some listDB))
        (List.replicate 3 exampleRequest) { store := [], trace := [] }).1
        = .response ⟨201, "\x7b\"message\":\"URL tracked successfully\"\x7d\n"⟩
          :: List.replicate (3 - 1) (.response (httpError "URL already exists" 409))
      ∧ (serve (trackRoute (envAnswering 200) exampleDecode (some listDB))
        (List.replicate 3 exampleRequest) { store := [], trace := [] }).2.store
          = [] ++ [{ ID := ([] : List URL).length + 1, TargetURL := "https://example.com" }]
      ∧ countTarget "https://example.com"
        (serve (trackRoute (envAnswering 200) exampleDecode (some listDB))
          (List.replicate 3 exampleRequest) { store := [], trace := [] }).2.store = 1 :=
  trackRoute_repeated (envAnswering 200) exampleDecode exampleRequest "t0"
    "https://example.com" [] [] 3 (by decide) (by decide) (by decide) (by decide)
    (by decide) (by decide) (by simp) (by decide)

end DemoTracker
